import Mathlib

/-!
Shallow embedding of the pythonominatim client library
(files pythonominatim/model/location.py and
pythonominatim/model/nominatim_search.py), with theorems checking the
natural-language specification against the code.

Modelling conventions:
* Python floats are modelled as `Rat`.  Every concrete value used below
  (10, 12, 20, 25, 0.3, 0.5, 0.9, ...) is exactly representable as an
  IEEE double, and the arithmetic performed on them by the code
  (subtraction and multiplication of small decimals, comparison) is exact
  at those inputs, so the rational model agrees with the Python runtime
  there.
* Python `dict` values are modelled as association lists.
* Fallible Python code (raising exceptions) is modelled with
  `Except String`, the string holding the exception message.
* `Location.distance_to` delegates to the external geopy geodesic
  routine; theorems about `reduce_locations` are therefore stated for an
  arbitrary distance function `dist : Location → Location → Rat`
  standing for `distance_to`.
-/

/-- A Python runtime value as it appears in the serialized parameter
dictionary (`model_dump` output). -/
inductive PyVal where
  | vstr (s : String)
  | vint (n : Int)
  | vfloat (q : Rat)
deriving DecidableEq

/-- `location.py`, class `Location`: one geocoded result.  Field names and
optionality follow the pydantic model; required fields have no default,
optional fields default to `none`.  Pydantic performs no constraint
validation on any of these fields (in particular none on the length of
`boundingbox`), so construction is total for well-typed inputs. -/
structure Location where
  place_id : Int
  osm_type : String
  osm_id : Int
  lat : Rat
  lon : Rat
  display_name : String
  address : Option (List (String × String)) := none
  boundingbox : Option (List Rat) := none
  class_ : Option String := none
  type_ : Option String := none
  importance : Option Rat := none
  icon : Option String := none
deriving DecidableEq

/-- `Location.area`.  The Python body is

    if self.boundingbox:
        return (self.boundingbox[1] - self.boundingbox[0]) * (
            self.boundingbox[2] - self.boundingbox[3]
        )
    else:
        raise ValueError("Boundingbox not found")

`if self.boundingbox:` is Python truthiness: both `None` and the empty
list take the `else` branch.  Indexing a too-short list raises
`IndexError`, modelled by the corresponding error value. -/
def Location.area (l : Location) : Except String Rat :=
  match l.boundingbox with
  | none => .error "Boundingbox not found"
  | some bb =>
    if bb.isEmpty then .error "Boundingbox not found"
    else
      match bb.get? 0, bb.get? 1, bb.get? 2, bb.get? 3 with
      | some b0, some b1, some b2, some b3 => .ok ((b1 - b0) * (b2 - b3))
      | _, _, _, _ => .error "IndexError: list index out of range"

/-- `NominatimSearch.reduce_locations`, the loop body: `reduced` is the
accumulator list (Python starts it as `[locations[0]]`), the second
argument is the remaining input.  `loc.distance_to(r) >= min_distance`
becomes `min_distance ≤ dist loc r`. -/
def reduceAux (dist : Location → Location → Rat) (min_distance : Rat) :
    List Location → List Location → List Location
  | reduced, [] => reduced
  | reduced, loc :: rest =>
    if reduced.all (fun r => decide (min_distance ≤ dist loc r)) then
      reduceAux dist min_distance (reduced ++ [loc]) rest
    else
      reduceAux dist min_distance reduced rest

/-- `NominatimSearch.reduce_locations`: empty input gives `[]`, otherwise
the accumulator starts with the first location and the loop runs over the
tail. -/
def reduce_locations (dist : Location → Location → Rat)
    (locations : List Location) (min_distance : Rat) : List Location :=
  match locations with
  | [] => []
  | l0 :: rest => reduceAux dist min_distance [l0] rest

/-- Modelled from the spec (§4.5), for comparison with `reduce_locations`:
"greedy single-pass filter ... For each subsequent location in original
order, keep it only if its distance to every already-kept location is
≥ minDistance; otherwise discard it."  The kept set is the accumulator;
the keep test is the literal bounded universal of the spec sentence. -/
def reduceSpecAux (dist : Location → Location → Rat) (min_distance : Rat) :
    List Location → List Location → List Location
  | kept, [] => kept
  | kept, loc :: rest =>
    if ∀ r ∈ kept, min_distance ≤ dist loc r then
      reduceSpecAux dist min_distance (kept ++ [loc]) rest
    else
      reduceSpecAux dist min_distance kept rest

/-- Modelled from the spec (§4.5): "Start the kept set with the first
location (if the input is empty, return empty)." -/
def reduceSpec (dist : Location → Location → Rat)
    (locations : List Location) (min_distance : Rat) : List Location :=
  match locations with
  | [] => []
  | l0 :: rest => reduceSpecAux dist min_distance [l0] rest

theorem reduceAux_eq_specAux (dist : Location → Location → Rat) (m : Rat) :
    ∀ (rest kept : List Location),
      reduceAux dist m kept rest = reduceSpecAux dist m kept rest := by
  intro rest
  induction rest with
  | nil => intro kept; rfl
  | cons loc rest ih =>
    intro kept
    by_cases hc : ∀ r ∈ kept, m ≤ dist loc r
    · have hb : (kept.all (fun r => decide (m ≤ dist loc r))) = true := by
        rw [List.all_eq_true]
        intro r hr
        exact decide_eq_true (hc r hr)
      simp only [reduceAux, reduceSpecAux, hb, if_true, if_pos hc]
      exact ih (kept ++ [loc])
    · have hb : (kept.all (fun r => decide (m ≤ dist loc r))) = false := by
        rw [List.all_eq_false]
        push_neg at hc
        obtain ⟨r, hr, hlt⟩ := hc
        exact ⟨r, hr, by simpa using hlt⟩
      simp only [reduceAux, reduceSpecAux, hb, if_false, if_neg hc]
      exact ih kept

/-- C1: `reduce_locations` is a greedy single-pass filter: empty input
gives the empty list for every `min_distance`; a non-empty input keeps
its first location; each subsequent location (in original order) is kept
iff its distance to every already-kept location is ≥ `min_distance`,
never being reconsidered.  Stated as: the code function agrees with
`reduceSpec`, the literal transcription of the spec's greedy description
(together with the empty and singleton cases explicitly). -/
theorem C1_reduce_locations_greedy (dist : Location → Location → Rat) (m : Rat) :
    reduce_locations dist [] m = [] ∧
    (∀ l0 : Location, reduce_locations dist [l0] m = [l0]) ∧
    (∀ locations : List Location,
      reduce_locations dist locations m = reduceSpec dist locations m) := by
  refine ⟨rfl, fun l0 => rfl, fun locations => ?_⟩
  cases locations with
  | nil => rfl
  | cons l0 rest => exact reduceAux_eq_specAux dist m rest [l0]

/-- A concrete `Location` whose bounding box is `[10, 12, 20, 25]`
(south 10, north 12, west 20, east 25). -/
def locBox : Location :=
  { place_id := 1, osm_type := "relation", osm_id := 1, lat := 11, lon := 22,
    display_name := "box", boundingbox := some [10, 12, 20, 25] }

/-- A concrete `Location` with no bounding box. -/
def locNoBox : Location :=
  { place_id := 2, osm_type := "node", osm_id := 2, lat := 0, lon := 0,
    display_name := "point" }

/-- C2: the code does NOT compute `(north − south) × (east − west)`.
`Location.area` multiplies `boundingbox[1] - boundingbox[0]` by
`boundingbox[2] - boundingbox[3]`, i.e. `(north − south) × (west − east)`,
so on the spec's own example `[10, 12, 20, 25]` it returns `-10`, where
the spec (and the claim) say `(12-10)*(25-20) = 10`.  A negative "area"
also contradicts the method's own docstring ("Calculate the area of the
location in km²"): the two longitude indices are swapped in the code. -/
theorem C2_area_sign_bug :
    locBox.area = Except.ok (-10) ∧ ((12 - 10) * (25 - 20) : Rat) = 10 := by
  constructor
  · show Location.area locBox = Except.ok (-10)
    rw [show locBox.area = Except.ok ((12 - 10) * (20 - 25) : Rat) from rfl]
    norm_num
  · norm_num

/-- A `Location` constructed with a 2-element bounding box: the pydantic
model has no validator on `boundingbox`, so this construction succeeds. -/
def locShortBox : Location :=
  { place_id := 3, osm_type := "way", osm_id := 3, lat := 0, lon := 0,
    display_name := "short", boundingbox := some [10, 12] }

/-- C7 counterexample: a `Location` whose present bounding box has 2
elements, not 4, has been constructed — the claimed "no Location with a
present bounding box of a different length can be constructed" invariant
is not enforced by the model. -/
theorem C7_counterexample :
    locShortBox.boundingbox = some [10, 12] ∧
    (([10, 12] : List Rat).length = 4) = False := by
  constructor
  · rfl
  · simp

/-- C7 amended: `Location` construction imposes no constraint on the
bounding box: for every optional list of floats `bb` (of any length), a
`Location` carrying exactly that bounding box can be constructed.  The
4-element `[south, north, west, east]` layout is a convention of the data
source, not an enforced invariant. -/
theorem C7_boundingbox_unconstrained (bb : Option (List Rat)) :
    ∃ l : Location, l.boundingbox = bb :=
  ⟨{ place_id := 0, osm_type := "node", osm_id := 0, lat := 0, lon := 0,
     display_name := "", boundingbox := bb }, rfl⟩

/-- C8: `area` raises the missing-data `ValueError "Boundingbox not
found"` when the location has no bounding box, and does not raise when a
4-element bounding box is present. -/
theorem C8_area_missing_data (l : Location) :
    (l.boundingbox = none → l.area = Except.error "Boundingbox not found") ∧
    (∀ bb : List Rat, l.boundingbox = some bb → bb.length = 4 →
      ∃ q : Rat, l.area = Except.ok q) := by
  constructor
  · intro h
    simp [Location.area, h]
  · intro bb hbb hlen
    match bb, hlen with
    | [b0, b1, b2, b3], _ =>
      exact ⟨(b1 - b0) * (b2 - b3), by simp [Location.area, hbb]⟩

/-- C8 witness: the theorem applied to `locNoBox` (no bounding box) and
to `locBox` (bounding box `[10, 12, 20, 25]`, length 4). -/
theorem C8_area_missing_data_witness :
    locNoBox.area = Except.error "Boundingbox not found" ∧
    ∃ q : Rat, locBox.area = Except.ok q :=
  ⟨(C8_area_missing_data locNoBox).1 rfl,
   (C8_area_missing_data locBox).2 [10, 12, 20, 25] rfl rfl⟩

theorem reduceAux_shape (dist : Location → Location → Rat) (m : Rat) :
    ∀ (rest kept : List Location),
      ∃ t, reduceAux dist m kept rest = kept ++ t ∧ t.Sublist rest := by
  intro rest
  induction rest with
  | nil => intro kept; exact ⟨[], by simp [reduceAux]⟩
  | cons loc rest ih =>
    intro kept
    by_cases hb : (kept.all (fun r => decide (m ≤ dist loc r))) = true
    · obtain ⟨t, ht, hs⟩ := ih (kept ++ [loc])
      refine ⟨loc :: t, ?_, hs.cons₂ loc⟩
      simp only [reduceAux, hb, if_true]
      rw [ht]
      simp
    · rw [Bool.not_eq_true] at hb
      obtain ⟨t, ht, hs⟩ := ih kept
      refine ⟨t, ?_, hs.cons loc⟩
      simp only [reduceAux, hb, if_false]
      exact ht

theorem reduceAux_sep (dist : Location → Location → Rat) (m : Rat) :
    ∀ (rest kept : List Location),
      kept.Pairwise (fun a b => m ≤ dist b a) →
      (reduceAux dist m kept rest).Pairwise (fun a b => m ≤ dist b a) := by
  intro rest
  induction rest with
  | nil => intro kept h; simpa [reduceAux] using h
  | cons loc rest ih =>
    intro kept h
    by_cases hb : (kept.all (fun r => decide (m ≤ dist loc r))) = true
    · simp only [reduceAux, hb, if_true]
      refine ih (kept ++ [loc]) (List.pairwise_append.2 ⟨h, List.pairwise_singleton _ _, ?_⟩)
      intro a ha b hbmem
      rw [List.mem_singleton] at hbmem
      subst hbmem
      exact of_decide_eq_true (List.all_eq_true.1 hb a ha)
    · rw [Bool.not_eq_true] at hb
      simp only [reduceAux, hb, if_false]
      exact ih kept h

theorem reduce_locations_sep (dist : Location → Location → Rat)
    (locations : List Location) (m : Rat) :
    (reduce_locations dist locations m).Pairwise (fun a b => m ≤ dist b a) := by
  cases locations with
  | nil => simp [reduce_locations]
  | cons l0 rest =>
    exact reduceAux_sep dist m rest [l0] (List.pairwise_singleton _ _)

/-- C9: for every input list and every `min_distance`, the output of
`reduce_locations` is a subsequence of the input (original order
preserved), and — provided the distance function is symmetric, as the
geodesic distance of `distance_to` is — any two locations at distinct
positions of the output are at distance ≥ `min_distance` from each other
in both directions. -/
theorem C9_reduce_locations_separated (dist : Location → Location → Rat)
    (locations : List Location) (m : Rat)
    (hsym : ∀ a b : Location, dist a b = dist b a) :
    (reduce_locations dist locations m).Sublist locations ∧
    (reduce_locations dist locations m).Pairwise
      (fun a b => m ≤ dist a b ∧ m ≤ dist b a) := by
  constructor
  · cases locations with
    | nil => simp [reduce_locations]
    | cons l0 rest =>
      obtain ⟨t, ht, hs⟩ := reduceAux_shape dist m rest [l0]
      rw [reduce_locations, ht]
      simpa using hs.cons₂ l0
  · refine (reduce_locations_sep dist locations m).imp ?_
    intro a b hab
    exact ⟨(hsym a b).symm ▸ hab, hab⟩

/-- A concrete symmetric distance function (taxicab distance on raw
coordinates), standing in for the geodesic `distance_to` in witnesses. -/
def taxiDist (a b : Location) : Rat :=
  |a.lat - b.lat| + |a.lon - b.lon|

theorem taxiDist_symm (a b : Location) : taxiDist a b = taxiDist b a := by
  simp [taxiDist, abs_sub_comm]

/-- C9 witness: the theorem applied at the symmetric `taxiDist`, a
concrete 3-location list and `min_distance = 5`. -/
theorem C9_reduce_locations_separated_witness :
    (reduce_locations taxiDist [locBox, locNoBox, locShortBox] 5).Sublist
      [locBox, locNoBox, locShortBox] ∧
    (reduce_locations taxiDist [locBox, locNoBox, locShortBox] 5).Pairwise
      (fun a b => (5 : Rat) ≤ taxiDist a b ∧ (5 : Rat) ≤ taxiDist b a) :=
  C9_reduce_locations_separated taxiDist [locBox, locNoBox, locShortBox] 5 taxiDist_symm

theorem reduceAux_fixed (dist : Location → Location → Rat) (m : Rat) :
    ∀ (rest kept : List Location),
      (kept ++ rest).Pairwise (fun a b => m ≤ dist b a) →
      reduceAux dist m kept rest = kept ++ rest := by
  intro rest
  induction rest with
  | nil => intro kept h; simp [reduceAux]
  | cons loc rest ih =>
    intro kept h
    have hb : (kept.all (fun r => decide (m ≤ dist loc r))) = true := by
      rw [List.all_eq_true]
      intro r hr
      exact decide_eq_true ((List.pairwise_append.1 h).2.2 r hr loc (by simp))
    simp only [reduceAux, hb, if_true]
    have h2 : ((kept ++ [loc]) ++ rest).Pairwise (fun a b => m ≤ dist b a) := by
      simpa [List.append_assoc] using h
    rw [ih (kept ++ [loc]) h2]
    simp

/-- C10: `reduce_locations` is idempotent: running it a second time with
the same `min_distance` keeps every location the first run kept, for
every distance function, input list and threshold. -/
theorem C10_reduce_locations_idempotent (dist : Location → Location → Rat)
    (locations : List Location) (m : Rat) :
    reduce_locations dist (reduce_locations dist locations m) m =
      reduce_locations dist locations m := by
  have hsep := reduce_locations_sep dist locations m
  cases hout : reduce_locations dist locations m with
  | nil => rfl
  | cons y t =>
    rw [hout] at hsep
    show reduceAux dist m [y] t = y :: t
    have := reduceAux_fixed dist m t [y] (by simpa using hsep)
    simpa using this

/-- State of one pydantic model field of `Optional` type: never passed at
construction (`unset`), passed as `None` (`null`), or passed with a
value.  `model_fields_set` contains the field iff it is not `unset`;
`model_dump(exclude_none=True, exclude_unset=True)` emits it iff it is a
`val`. -/
inductive OptField (α : Type) where
  | unset : OptField α
  | null : OptField α
  | val : α → OptField α
deriving DecidableEq

/-- Whether an `OptField` carries a value (set and non-null). -/
def OptField.hasVal {α : Type} : OptField α → Bool
  | .val _ => true
  | _ => false

/-- ASCII whitespace stripped by Python `str.strip()` / `float()` (the
unicode whitespace Python also strips is not modelled; no claim below
depends on it). -/
def isPyWhitespace (c : Char) : Bool :=
  c = ' ' ∨ c = '\t' ∨ c = '\n' ∨ c = '\r' ∨ c = '\x0b' ∨ c = '\x0c'

/-- Tail of a digit run: digits in which an underscore must be followed
by a digit. -/
def digitRunTail : List Char → Bool
  | [] => true
  | '_' :: c :: rest => c.isDigit && digitRunTail rest
  | ['_'] => false
  | c :: rest => c.isDigit && digitRunTail rest

/-- A run of ASCII digits in which underscores may appear strictly
between digits, as Python numeric literals allow: regex
`[0-9](_?[0-9])*`. -/
def digitRun : List Char → Bool
  | [] => false
  | c :: rest => c.isDigit && digitRunTail rest

/-- Helper for `pySplit`: returns the chunk before the first separator
occurrence and the chunks after it. -/
def pySplitAux (sep : Char) : List Char → List Char × List (List Char)
  | [] => ([], [])
  | c :: rest =>
    let r := pySplitAux sep rest
    if c = sep then ([], r.1 :: r.2)
    else (c :: r.1, r.2)

/-- Python `str.split(sep)` for a one-character separator: splits at
every occurrence, keeping empty chunks; the empty string yields one
empty chunk (`"".split(",") == [""]`). -/
def pySplit (sep : Char) (cs : List Char) : List (List Char) :=
  let r := pySplitAux sep cs
  r.1 :: r.2

/-- Mantissa of a Python float literal: `digits`, `digits.`,
`digits.digits`, or `.digits`. -/
def mantissaOk (cs : List Char) : Bool :=
  match pySplit '.' cs with
  | [i] => digitRun i
  | [i, f] =>
    (digitRun i && (f.isEmpty || digitRun f)) || (i.isEmpty && digitRun f)
  | _ => false

/-- Exponent part (after `e`): optional sign, then digits. -/
def exponentOk : List Char → Bool
  | '+' :: rest => digitRun rest
  | '-' :: rest => digitRun rest
  | rest => digitRun rest

/-- Modelled from CPython's builtin `float(str)` (an external to this
repository): strip surrounding whitespace, allow one leading sign, then
either `inf`/`infinity`/`nan` (case-insensitive) or a decimal literal
with optional fraction and exponent.  Returns `true` iff `float(s)` does
not raise `ValueError`.  (Non-ASCII decimal digits, which CPython also
accepts, are not modelled; no claim below depends on them.) -/
def pyFloatParsesCore (cs : List Char) : Bool :=
  let stripped :=
    ((cs.dropWhile isPyWhitespace).reverse.dropWhile isPyWhitespace).reverse
  let lowered := stripped.map Char.toLower
  let body :=
    match lowered with
    | '+' :: rest => rest
    | '-' :: rest => rest
    | other => other
  if body = "inf".data ∨ body = "infinity".data ∨ body = "nan".data then true
  else
    match pySplit 'e' body with
    | [mpart] => mantissaOk mpart
    | [mpart, epart] => mantissaOk mpart && exponentOk epart
    | _ => false

/-- `float(s)` succeeds on the string `s`. -/
def pyFloatParses (s : String) : Bool :=
  pyFloatParsesCore s.data

/-- `SearchParams.validate_format`. -/
def validate_format (value : String) : Except String String :=
  if value = "xml" ∨ value = "json" ∨ value = "jsonv2" ∨ value = "geojson" ∨
      value = "geocodejson" then
    .ok value
  else
    .error "Invalid format."

/-- `SearchParams.validate_limit`. -/
def validate_limit (value : Int) : Except String Int :=
  if 1 ≤ value ∧ value ≤ 40 then .ok value
  else .error "Limit must be between 1 and 40."

/-- `SearchParams.validate_zero_one`. -/
def validate_zero_one (value : Int) : Except String Int :=
  if value = 0 ∨ value = 1 then .ok value
  else .error "Value must be 0 or 1."

/-- `SearchParams.validate_viewbox`.  The Python body is

    if value:
        coords = value.split(",")
        if len(coords) != 4:
            raise ValueError("Viewbox must have four comma-separated values.")
        try:
            coords = [float(coord) for coord in coords]
        except ValueError:
            raise ValueError("Viewbox coordinates must be floating-point numbers.")
    return value

`if value:` is Python truthiness: `None` and the empty string both skip
the checks entirely. -/
def validate_viewbox (value : Option String) : Except String (Option String) :=
  match value with
  | none => .ok none
  | some v =>
    if v = "" then .ok (some v)
    else
      let coords := pySplit ',' v.data
      if coords.length ≠ 4 then
        .error "Viewbox must have four comma-separated values."
      else if coords.all pyFloatParsesCore then .ok (some v)
      else .error "Viewbox coordinates must be floating-point numbers."

/-- `nominatim_search.py`, class `SearchParams`, as passed to pydantic
construction: fields of `Optional` Python type use `OptField` (they can
be explicitly set to `None`); fields of plain type use `Option`, where
`none` means "left at its default" — pydantic runs no validator on a
defaulted field (`validate_default` is false). -/
structure SearchParamsIn where
  q : OptField String := .unset
  amenity : OptField String := .unset
  street : OptField String := .unset
  city : OptField String := .unset
  county : OptField String := .unset
  state : OptField String := .unset
  country : OptField String := .unset
  postalcode : OptField String := .unset
  format : Option String := none
  json_callback : OptField String := .unset
  addressdetails : Option Int := none
  extratags : Option Int := none
  namedetails : Option Int := none
  limit : Option Int := none
  countrycodes : OptField String := .unset
  layer : OptField String := .unset
  featureType : OptField String := .unset
  exclude_place_ids : OptField String := .unset
  viewbox : OptField String := .unset
  bounded : Option Int := none
  polygon_geojson : Option Int := none
  polygon_kml : Option Int := none
  polygon_svg : Option Int := none
  polygon_text : Option Int := none
  polygon_threshold : Option Rat := none
  dedupe : Option Int := none
  debug : Option Int := none
deriving DecidableEq

/-- Run a validator on a field only when the field was provided. -/
def runOptValidator {α : Type} (f : Option α) (v : α → Except String α) :
    Except String Unit :=
  match f with
  | none => .ok ()
  | some x => do
    let _ ← v x
    .ok ()

/-- Run `validate_viewbox` on the viewbox field: pydantic calls the
validator for a provided field even when the provided value is `None`. -/
def runViewboxValidator (f : OptField String) : Except String Unit :=
  match f with
  | .unset => .ok ()
  | .null => do
    let _ ← validate_viewbox none
    .ok ()
  | .val v => do
    let _ ← validate_viewbox (some v)
    .ok ()

/-- `SearchParams(...)` construction: run each field validator on the
provided fields, in field declaration order; fail on the first violated
constraint (pydantic fails construction whenever any validator raises),
otherwise return the validated record unchanged. -/
def mkSearchParams (i : SearchParamsIn) : Except String SearchParamsIn := do
  let _ ← runOptValidator i.format validate_format
  let _ ← runOptValidator i.addressdetails validate_zero_one
  let _ ← runOptValidator i.extratags validate_zero_one
  let _ ← runOptValidator i.namedetails validate_zero_one
  let _ ← runOptValidator i.limit validate_limit
  let _ ← runViewboxValidator i.viewbox
  let _ ← runOptValidator i.bounded validate_zero_one
  let _ ← runOptValidator i.dedupe validate_zero_one
  let _ ← runOptValidator i.debug validate_zero_one
  .ok i

/-- Whether an `Except` result is a success (no exception raised). -/
def exceptOk {ε α : Type} : Except ε α → Bool
  | .ok _ => true
  | .error _ => false

/-- C6 counterexample: the claim quantifies over every provided viewbox
string, but `validate_viewbox` begins with Python `if value:`, and the
empty string is falsy — so `SearchParams(viewbox="")` succeeds although
`""` does not consist of exactly 4 comma-separated numeric tokens (its
token list `"".split(",")` has length 1, and its sole token is not
parseable as a float). -/
theorem C6_counterexample :
    exceptOk (mkSearchParams { viewbox := OptField.val "" }) = true ∧
    (pySplit ',' "".data).length = 1 ∧
    (pySplit ',' "".data).all pyFloatParsesCore = false := by
  refine ⟨rfl, rfl, by decide⟩

theorem mkSearchParams_viewbox_only (v : String) :
    exceptOk (mkSearchParams { viewbox := OptField.val v }) =
      exceptOk (validate_viewbox (some v)) := by
  cases hvv : validate_viewbox (some v) with
  | ok x =>
    simp [mkSearchParams, runOptValidator, runViewboxValidator, hvv, exceptOk,
      bind, Except.bind]
  | error e =>
    simp [mkSearchParams, runOptValidator, runViewboxValidator, hvv, exceptOk,
      bind, Except.bind]

/-- C6 amended: for a `SearchParams` construction that sets only
`viewbox`, construction succeeds iff the viewbox string is empty (the
truthiness shortcut) or consists of exactly 4 comma-separated tokens
each parseable as a Python float; it fails on every other string. -/
theorem C6_viewbox_validation (v : String) :
    exceptOk (mkSearchParams { viewbox := OptField.val v }) = true ↔
      (v = "" ∨ ((pySplit ',' v.data).length = 4 ∧
        (pySplit ',' v.data).all pyFloatParsesCore = true)) := by
  rw [mkSearchParams_viewbox_only]
  by_cases hv : v = ""
  · simp [validate_viewbox, hv, exceptOk]
  · by_cases hlen : (pySplit ',' v.data).length = 4
    · by_cases hall : (pySplit ',' v.data).all pyFloatParsesCore = true
      · simp [validate_viewbox, hv, hlen, hall, exceptOk]
      · simp [validate_viewbox, hv, hlen, hall, exceptOk]
    · simp [validate_viewbox, hv, hlen, exceptOk]

/-- C6 witness: the amended theorem applied at the 4-token numeric string
`"1,2,-3.5,4e1"` (construction succeeds) and, through its forward
direction, at `"1,2,3"` (construction fails). -/
theorem C6_viewbox_validation_witness :
    exceptOk (mkSearchParams { viewbox := OptField.val "1,2,-3.5,4e1" }) = true ∧
    ¬ exceptOk (mkSearchParams { viewbox := OptField.val "1,2,3" }) = true :=
  ⟨(C6_viewbox_validation "1,2,-3.5,4e1").mpr (Or.inr (by decide)),
   fun h => by
    rcases (C6_viewbox_validation "1,2,3").mp h with h1 | h2
    · simp at h1
    · have := h2.1
      simp [pySplit, pySplitAux] at this⟩

/-- Dump value of an `Optional`-typed string field under
`model_dump(exclude_none=True, exclude_unset=True)`: emitted iff set and
non-null. -/
def optStrVal : OptField String → Option PyVal
  | .val s => some (.vstr s)
  | _ => none

/-- Dump value of a plain `int` field: emitted iff explicitly set (its
value is never `None`). -/
def optIntVal : Option Int → Option PyVal
  | some n => some (.vint n)
  | none => none

/-- Dump value of a plain `float` field. -/
def optRatVal : Option Rat → Option PyVal
  | some q => some (.vfloat q)
  | none => none

/-- Dump value of a plain `str` field. -/
def optPlainStrVal : Option String → Option PyVal
  | some s => some (.vstr s)
  | none => none

/-- The `SearchParams` fields in declaration order, each with its
`model_dump(exclude_none=True, exclude_unset=True)` contribution. -/
def fieldSpec : List (String × (SearchParamsIn → Option PyVal)) :=
  [("q", fun i => optStrVal i.q),
   ("amenity", fun i => optStrVal i.amenity),
   ("street", fun i => optStrVal i.street),
   ("city", fun i => optStrVal i.city),
   ("county", fun i => optStrVal i.county),
   ("state", fun i => optStrVal i.state),
   ("country", fun i => optStrVal i.country),
   ("postalcode", fun i => optStrVal i.postalcode),
   ("format", fun i => optPlainStrVal i.format),
   ("json_callback", fun i => optStrVal i.json_callback),
   ("addressdetails", fun i => optIntVal i.addressdetails),
   ("extratags", fun i => optIntVal i.extratags),
   ("namedetails", fun i => optIntVal i.namedetails),
   ("limit", fun i => optIntVal i.limit),
   ("countrycodes", fun i => optStrVal i.countrycodes),
   ("layer", fun i => optStrVal i.layer),
   ("featureType", fun i => optStrVal i.featureType),
   ("exclude_place_ids", fun i => optStrVal i.exclude_place_ids),
   ("viewbox", fun i => optStrVal i.viewbox),
   ("bounded", fun i => optIntVal i.bounded),
   ("polygon_geojson", fun i => optIntVal i.polygon_geojson),
   ("polygon_kml", fun i => optIntVal i.polygon_kml),
   ("polygon_svg", fun i => optIntVal i.polygon_svg),
   ("polygon_text", fun i => optIntVal i.polygon_text),
   ("polygon_threshold", fun i => optRatVal i.polygon_threshold),
   ("dedupe", fun i => optIntVal i.dedupe),
   ("debug", fun i => optIntVal i.debug)]

/-- `params.model_dump(exclude_none=True, exclude_unset=True)`: the
association list of explicitly-set, non-null fields in declaration
order. -/
def params_base (i : SearchParamsIn) : List (String × PyVal) :=
  fieldSpec.filterMap (fun sp => (sp.2 i).map (fun pv => (sp.1, pv)))

/-- Python `dict.update` / `d[k] = v` for an association list without
duplicate keys: replace the value at the first occurrence of the key,
keeping its position, or append the pair at the end. -/
def dictSet : List (String × PyVal) → String → PyVal → List (String × PyVal)
  | [], k, v => [(k, v)]
  | kv :: rest, k, v =>
    if kv.1 = k then (k, v) :: rest else kv :: dictSet rest k v

/-- Python `d.get(k)` for an association list: first occurrence wins. -/
def dictGet : List (String × PyVal) → String → Option PyVal
  | [], _ => none
  | kv :: rest, k => if kv.1 = k then some kv.2 else dictGet rest k

/-- `NominatimSearch.search`, lines 117-118:
`params_dict = params.model_dump(exclude_none=True, exclude_unset=True)`
followed by `params_dict.update({"format": "jsonv2"})`. -/
def params_dict (p : SearchParamsIn) : List (String × PyVal) :=
  dictSet (params_base p) "format" (.vstr "jsonv2")

/-- The field named `k` was explicitly set and is non-null in `p`. -/
def setNonNull (p : SearchParamsIn) (k : String) : Bool :=
  fieldSpec.any (fun sp => sp.1 == k && (sp.2 p).isSome)

theorem dictGet_dictSet (d : List (String × PyVal)) (k : String) (v : PyVal) :
    dictGet (dictSet d k v) k = some v := by
  induction d with
  | nil => simp [dictSet, dictGet]
  | cons kv rest ih =>
    by_cases h : kv.1 = k
    · simp [dictSet, dictGet, h]
    · simp [dictSet, dictGet, h, ih]

theorem mem_dictSet (d : List (String × PyVal)) (k : String) (v : PyVal)
    (kv : String × PyVal) (h : kv ∈ dictSet d k v) : kv = (k, v) ∨ kv ∈ d := by
  induction d with
  | nil => simpa [dictSet] using h
  | cons kv0 rest ih =>
    by_cases h0 : kv0.1 = k
    · rw [dictSet, if_pos h0] at h
      rcases List.mem_cons.1 h with h1 | h1
      · exact Or.inl h1
      · exact Or.inr (List.mem_cons.2 (Or.inr h1))
    · rw [dictSet, if_neg h0] at h
      rcases List.mem_cons.1 h with h1 | h1
      · exact Or.inr (List.mem_cons.2 (Or.inl h1))
      · rcases ih h1 with h2 | h2
        · exact Or.inl h2
        · exact Or.inr (List.mem_cons.2 (Or.inr h2))

theorem mem_params_base (p : SearchParamsIn) (kv : String × PyVal)
    (h : kv ∈ params_base p) : setNonNull p kv.1 = true := by
  rw [params_base, List.mem_filterMap] at h
  obtain ⟨sp, hsp, hmap⟩ := h
  rw [Option.map_eq_some'] at hmap
  obtain ⟨pv, hpv, hkv⟩ := hmap
  rw [setNonNull, List.any_eq_true]
  refine ⟨sp, hsp, ?_⟩
  rw [Bool.and_eq_true, beq_iff_eq]
  exact ⟨by rw [← hkv], by simp [hpv]⟩

/-- C5 amended: serialization of a successfully constructed
`SearchParams` yields a mapping whose `format` key is always `"jsonv2"`
regardless of the format value the caller set, and whose every other
entry comes from a field that was explicitly set and is non-null.
(Explicitly-set empty strings are NOT omitted — see the
counterexample.) -/
theorem C5_serialization (i p : SearchParamsIn)
    (h : mkSearchParams i = Except.ok p) :
    dictGet (params_dict p) "format" = some (PyVal.vstr "jsonv2") ∧
    ∀ kv ∈ params_dict p, kv.1 = "format" ∨ setNonNull p kv.1 = true := by
  refine ⟨dictGet_dictSet _ _ _, fun kv hkv => ?_⟩
  rcases mem_dictSet _ _ _ kv hkv with h1 | h1
  · exact Or.inl (by rw [h1])
  · exact Or.inr (mem_params_base p kv h1)

/-- `SearchParams(q="")`: a construction that explicitly sets `q` to the
empty string (no validator runs on `q`). -/
def qEmptyParams : SearchParamsIn := { q := OptField.val "" }

/-- C5 counterexample: the claim says the produced mapping contains only
non-empty fields, but `model_dump(exclude_none=True, exclude_unset=True)`
only drops `None` values: for `SearchParams(q="")` the mapping contains
the key `q` with the empty string as value. -/
theorem C5_counterexample :
    mkSearchParams qEmptyParams = Except.ok qEmptyParams ∧
    ("q", PyVal.vstr "") ∈ params_dict qEmptyParams ∧
    ("" : String).length = 0 := by
  refine ⟨rfl, ?_, rfl⟩
  decide

/-- C5 witness: the amended theorem applied to the concrete construction
`SearchParams(q="")`. -/
theorem C5_serialization_witness :
    dictGet (params_dict qEmptyParams) "format" = some (PyVal.vstr "jsonv2") ∧
    ∀ kv ∈ params_dict qEmptyParams,
      kv.1 = "format" ∨ setNonNull qEmptyParams kv.1 = true :=
  C5_serialization qEmptyParams qEmptyParams rfl

/-- The `Union[str, Dict, SearchParams]` input accepted by
`NominatimSearch.search`: a free-text string, a mapping of field
assignments, or an already-built (validated) `SearchParams`. -/
inductive QueryInput where
  | qstr (s : String)
  | qdict (d : SearchParamsIn)
  | qparams (p : SearchParamsIn)

/-- `NominatimSearch.search`: coerce the input into a validated
`SearchParams` (a string becomes `SearchParams(q=params)`, a dict becomes
`SearchParams(**params)`, an instance is used as-is), then perform the
HTTP GET.  The network round-trip — serialization, the GET itself,
response parsing into `Location`s, and the non-200 `ClientResponseError`
— is abstracted as the function `http` from validated parameters to a
result-or-error. -/
def search (http : SearchParamsIn → Except String (List Location)) :
    QueryInput → Except String (List Location)
  | .qstr s => do
    let p ← mkSearchParams { q := OptField.val s }
    http p
  | .qdict d => do
    let p ← mkSearchParams d
    http p
  | .qparams p => http p

/-- `NominatimSearch.search_multiple`:
`asyncio.gather(*tasks, return_exceptions=True)` awaits every per-query
task and returns their outcomes in task-list order, storing a raised
exception in the slot of the query that raised it instead of propagating
it.  Denotationally (each search being a function of its own query alone)
this is a positional map of `search` over the query list. -/
def search_multiple (http : SearchParamsIn → Except String (List Location))
    (queries : List QueryInput) : List (Except String (List Location)) :=
  queries.map (search http)

/-- A dict input that fails `SearchParams` validation (`limit=50` is
outside `[1, 40]`). -/
def limitBadParams : SearchParamsIn := { limit := some 50 }

/-- C4: `search_multiple` returns one slot per query, positionally
aligned (slot `i` is exactly the result or error of query `i`), so one
query's failure never disturbs the others: concretely, for 3 queries
whose 2nd fails `limit` validation, the slots are the 1st query's own
result, the validation error, and the 3rd query's own result. -/
theorem C4_search_multiple_aligned
    (http : SearchParamsIn → Except String (List Location))
    (queries : List QueryInput) :
    (search_multiple http queries).length = queries.length ∧
    (∀ i : Nat,
      (search_multiple http queries)[i]? = (queries[i]?).map (search http)) ∧
    search_multiple http
        [QueryInput.qstr "first", QueryInput.qdict limitBadParams,
         QueryInput.qstr "third"] =
      [http { q := OptField.val "first" },
       Except.error "Limit must be between 1 and 40.",
       http { q := OptField.val "third" }] := by
  refine ⟨List.length_map _ _, fun i => List.getElem?_map _ _ _, rfl⟩

/-- Python `<` on sort keys of type `Optional[float]`: comparing `None`
with anything (or anything with `None`) raises `TypeError` in Python 3;
two floats compare numerically. -/
def pyLtKey (a b : Option Rat) : Except String Bool :=
  match a, b with
  | some x, some y => .ok (decide (x < y))
  | _, _ => .error "TypeError: comparison not supported between NoneType and float"

/-- Stable insertion of a keyed element into an ascending keyed list
using the Python comparison: the element goes before the first strictly
greater key, hence after equal keys (stability).  Propagates the
`TypeError` of any `None` comparison. -/
def insertAsc (x : Option Rat × Location) :
    List (Option Rat × Location) → Except String (List (Option Rat × Location))
  | [] => .ok [x]
  | y :: ys => do
    let b ← pyLtKey x.1 y.1
    if b then .ok (x :: y :: ys)
    else do
      let r ← insertAsc x ys
      .ok (y :: r)

/-- Stable ascending comparison sort over keyed elements (insertion
sort), processing elements in list order.  Models CPython `list.sort`
up to which comparisons are attempted: like every comparison sort,
on a list of 2 or more keys containing a `None` it reaches a
`None`-vs-other comparison and raises `TypeError`. -/
def sortAscByKey (l : List (Option Rat × Location)) :
    Except String (List (Option Rat × Location)) :=
  l.foldlM (fun acc x => insertAsc x acc) []

/-- `NominatimSearch.sort_by_importance`:
`sorted(locations, key=lambda x: x.importance, reverse=True)`.
CPython implements `reverse=True` by reversing the list, sorting
ascending stably by key, and reversing again. -/
def sort_by_importance (locations : List Location) :
    Except String (List Location) := do
  let keyed := locations.map (fun l => (l.importance, l))
  let sorted ← sortAscByKey keyed.reverse
  .ok (sorted.reverse.map (fun pr => pr.2))

/-- A minimal `Location` with a given id and importance. -/
def locImp (pid : Int) (imp : Option Rat) : Location :=
  { place_id := pid, osm_type := "node", osm_id := pid, lat := 0, lon := 0,
    display_name := "t", importance := imp }

/-- C3: the code crashes on the claim's own input.  For importances
`[0.3, 0.9, None, 0.5]`, `sorted(..., key=lambda x: x.importance,
reverse=True)` compares the `None` key against a float key and raises
`TypeError`, instead of returning the claimed order with the `None`
entry last.  (For comparison: the claim expects
`[0.9, 0.5, 0.3, None]`.) -/
theorem C3_sort_by_importance_crashes_on_none :
    sort_by_importance
        [locImp 1 (some 0.3), locImp 2 (some 0.9), locImp 3 none,
         locImp 4 (some 0.5)] =
      Except.error
        "TypeError: comparison not supported between NoneType and float" := by
  rfl
